import Mathlib

/-!
Shallow embedding of the video-creation-bot repository, covering:

* the in-memory Project Store (`MemStorage` in `server/storage.ts`):
  `createProject`, `getProject`, `getProjects`, `updateProject`,
  `deleteProject`, together with a small operational model (`runOps`)
  for whole-lifetime invariants;
* the Higgsfield media-generation proxy (`api/higgs-client.ts` and
  `server/replit_integrations/higgs/client.ts`): `pollForImageStatus`
  in both variants and the submission retry loop of `generateImage`;
* the derived-field arithmetic of the `POST /api/generate-script`
  instruction template (`server/routes.ts`);
* the `GET /api/projects/:id` handler's id parsing.

JavaScript `Map` objects are modelled as insertion-ordered lists of
records, JavaScript string/number truthiness is modelled explicitly,
and every sleep (`setTimeout` wait) is recorded in an explicit trace so
that claims about the number and length of waits are statable.
-/

/-- JS truthiness of an optional string: `undefined`, `null` and `""` are
falsy, every other string is truthy. -/
def strTruthy : Option String → Bool
  | some s => s ≠ ""
  | none => false

/-- JS `a || b` on two optional strings (used for patterns like
`x.url || x.image_url`). -/
def jsOrS (a b : Option String) : Option String :=
  if strTruthy a then a else b

/-- JS `a || dflt` where `dflt` is a non-null string literal (used for
patterns like `statusData.message || 'Unknown error'`). -/
def jsOrDflt (a : Option String) (dflt : String) : String :=
  match a with
  | some s => if s ≠ "" then s else dflt
  | none => dflt

/-- Substring test, modelling JS `String.prototype.includes` for the
fixed non-empty patterns the client uses (`'timeout'`, `'fetch failed'`,
`'ECONNREFUSED'`, `'ETIMEDOUT'`). -/
def strIncludes (s pat : String) : Bool :=
  (s.splitOn pat).length ≠ 1

/-! ## Data model (`shared/schema.ts` / `server/storage.ts`)

`VideoProject` is the `videoProjects` row type: nullable text columns are
`Option String` (with `none` standing for SQL/JS `null`), `createdAt` is
an epoch timestamp in milliseconds. -/

structure VideoProject where
  id : Nat
  title : String
  platform : String
  videoLength : Int
  purpose : String
  tone : String
  keyPhrase : Option String
  keyword : Option String
  script : Option String
  hookGenerated : Bool
  imageGenerated : Bool
  videoGenerated : Bool
  audioGenerated : Bool
  editingComplete : Bool
  imagePrompt : Option String
  videoPrompt : Option String
  createdAt : Nat
deriving Repr, DecidableEq

/-- `InsertVideoProject` (the zod insert schema: `videoProjects` minus
`id`/`createdAt`; columns with defaults and nullable columns are
optional).  For the nullable text fields `none` stands for
omitted-or-null, which `?? null` maps to `null` unchanged. -/
structure InsertVideoProject where
  title : String
  platform : String
  purpose : String
  tone : String
  videoLength : Option Int := none
  keyPhrase : Option String := none
  keyword : Option String := none
  script : Option String := none
  hookGenerated : Option Bool := none
  imageGenerated : Option Bool := none
  videoGenerated : Option Bool := none
  audioGenerated : Option Bool := none
  editingComplete : Option Bool := none
  imagePrompt : Option String := none
  videoPrompt : Option String := none
deriving Repr, DecidableEq

/-- A `Partial<InsertVideoProject>` patch: a field is `some v` when the
key is present in the patch (with value `v`) and `none` when the key is
omitted, so that the JS spread `{...existing, ...updates}` is the
field-wise `Option.getD`. -/
structure ProjectPatch where
  title : Option String := none
  platform : Option String := none
  purpose : Option String := none
  tone : Option String := none
  videoLength : Option Int := none
  keyPhrase : Option (Option String) := none
  keyword : Option (Option String) := none
  script : Option (Option String) := none
  hookGenerated : Option Bool := none
  imageGenerated : Option Bool := none
  videoGenerated : Option Bool := none
  audioGenerated : Option Bool := none
  editingComplete : Option Bool := none
  imagePrompt : Option (Option String) := none
  videoPrompt : Option (Option String) := none
deriving Repr, DecidableEq

/-- `MemStorage`'s project state: the `Map<number, VideoProject>` as an
insertion-ordered list of records (each record carries its key as `id`),
plus `projectIdCounter`.  The unrelated user map is not modelled. -/
structure MemStorage where
  projects : List VideoProject
  projectIdCounter : Nat
deriving Repr, DecidableEq

/-- `new MemStorage()`: empty map, counter starts at 1. -/
def MemStorage.empty : MemStorage := ⟨[], 1⟩

/-- `Map.set(id, v)` on the insertion-ordered model: replace in place if
the key is present, else append. -/
def mapSet (l : List VideoProject) (v : VideoProject) : List VideoProject :=
  if l.any (fun p => p.id == v.id) then
    l.map (fun p => if p.id == v.id then v else p)
  else
    l ++ [v]

/-- `MemStorage.getProject`: `this.projects.get(id)`. -/
def MemStorage.getProject (s : MemStorage) (id : Nat) : Option VideoProject :=
  s.projects.find? (fun p => p.id == id)

/-- `MemStorage.createProject`: assigns `id = this.projectIdCounter++`,
fills defaults with `??`, stamps `createdAt` with the current time
(`new Date()`, passed here as `now`), stores and returns the record. -/
def MemStorage.createProject (s : MemStorage) (ins : InsertVideoProject)
    (now : Nat) : VideoProject × MemStorage :=
  let id := s.projectIdCounter
  let project : VideoProject :=
    { id := id
      title := ins.title
      platform := ins.platform
      videoLength := ins.videoLength.getD 15
      purpose := ins.purpose
      tone := ins.tone
      keyPhrase := ins.keyPhrase
      keyword := ins.keyword
      script := ins.script
      hookGenerated := ins.hookGenerated.getD false
      imageGenerated := ins.imageGenerated.getD false
      videoGenerated := ins.videoGenerated.getD false
      audioGenerated := ins.audioGenerated.getD false
      editingComplete := ins.editingComplete.getD false
      imagePrompt := ins.imagePrompt
      videoPrompt := ins.videoPrompt
      createdAt := now }
  (project, { projects := mapSet s.projects project, projectIdCounter := id + 1 })

/-- The JS spread `{...existing, ...updates}` for a
`Partial<InsertVideoProject>` patch: present keys override, omitted keys
(and `id`/`createdAt`, which the patch type cannot contain) are kept. -/
def mergeProject (p : VideoProject) (u : ProjectPatch) : VideoProject :=
  { id := p.id
    title := u.title.getD p.title
    platform := u.platform.getD p.platform
    videoLength := u.videoLength.getD p.videoLength
    purpose := u.purpose.getD p.purpose
    tone := u.tone.getD p.tone
    keyPhrase := u.keyPhrase.getD p.keyPhrase
    keyword := u.keyword.getD p.keyword
    script := u.script.getD p.script
    hookGenerated := u.hookGenerated.getD p.hookGenerated
    imageGenerated := u.imageGenerated.getD p.imageGenerated
    videoGenerated := u.videoGenerated.getD p.videoGenerated
    audioGenerated := u.audioGenerated.getD p.audioGenerated
    editingComplete := u.editingComplete.getD p.editingComplete
    imagePrompt := u.imagePrompt.getD p.imagePrompt
    videoPrompt := u.videoPrompt.getD p.videoPrompt
    createdAt := p.createdAt }

/-- `MemStorage.updateProject`: returns `undefined` (here `none`) and
leaves the store unchanged when the id is absent, otherwise stores and
returns the merged record. -/
def MemStorage.updateProject (s : MemStorage) (id : Nat) (u : ProjectPatch) :
    Option VideoProject × MemStorage :=
  match s.getProject id with
  | none => (none, s)
  | some existing =>
    let updated := mergeProject existing u
    (some updated, { s with projects := mapSet s.projects updated })

/-- `MemStorage.deleteProject`: `this.projects.delete(id)` — removes the
entry and returns whether it existed. -/
def MemStorage.deleteProject (s : MemStorage) (id : Nat) : Bool × MemStorage :=
  (s.projects.any (fun p => p.id == id),
   { s with projects := s.projects.filter (fun p => !(p.id == id)) })

/-- `MemStorage.getProjects`: `Array.from(this.projects.values())` (the
insertion-ordered list) sorted with the comparator
`(a, b) => b.createdAt - a.createdAt`, i.e. `a` may precede `b` exactly
when `b.createdAt ≤ a.createdAt`.  JS `Array.prototype.sort` is stable;
`List.mergeSort` is the matching stable sort. -/
def MemStorage.getProjects (s : MemStorage) : List VideoProject :=
  s.projects.mergeSort (fun a b => b.createdAt ≤ a.createdAt)

/-! ### Operational model for whole-lifetime invariants -/

/-- One request-level operation on the store. -/
inductive StoreOp where
  | create (ins : InsertVideoProject) (now : Nat)
  | update (id : Nat) (u : ProjectPatch)
  | del (id : Nat)
deriving Repr

/-- Apply one operation; a `create` also reports the id it assigned. -/
def applyOp (s : MemStorage) : StoreOp → MemStorage × Option Nat
  | .create ins now =>
    let r := s.createProject ins now
    (r.2, some r.1.id)
  | .update id u => ((s.updateProject id u).2, none)
  | .del id => ((s.deleteProject id).2, none)

/-- Run a sequence of operations from state `s`, collecting the ids the
`create` calls assign, in order. -/
def runOpsAux (s : MemStorage) : List StoreOp → MemStorage × List Nat
  | [] => (s, [])
  | op :: rest =>
    let r := applyOp s op
    let rec' := runOpsAux r.1 rest
    (rec'.1, match r.2 with
             | some i => i :: rec'.2
             | none => rec'.2)

/-- Run a sequence of operations on a fresh `MemStorage`. -/
def runOps (ops : List StoreOp) : MemStorage × List Nat :=
  runOpsAux MemStorage.empty ops

/-- Number of `create` operations in a sequence. -/
def countCreates : List StoreOp → Nat
  | [] => 0
  | .create _ _ :: rest => countCreates rest + 1
  | _ :: rest => countCreates rest

/-! ## `GET /api/projects/:id` (`server/routes.ts`)

`parseInt(req.params.id)` is modelled by `jsParseInt`, with `none`
standing for `NaN`; the store's `Map.get` key comparison (SameValueZero)
never matches `NaN` against the numeric keys the counter assigns. -/

/-- JS `StrWhiteSpaceChar`: WhiteSpace (TAB, VT, FF, SP, NBSP, ZWNBSP
and the Unicode Zs space separators) together with the LineTerminators
(LF, CR, LS, PS) — the class a radix-less `parseInt` strips. -/
def jsWhitespaceChar (c : Char) : Bool :=
  c == '\t' || c == '\n' || c.toNat == 0x0B || c.toNat == 0x0C ||
  c == '\r' || c == ' ' || c.toNat == 0xA0 || c.toNat == 0xFEFF ||
  c.toNat == 0x1680 || (0x2000 ≤ c.toNat && c.toNat ≤ 0x200A) ||
  c.toNat == 0x2028 || c.toNat == 0x2029 || c.toNat == 0x202F ||
  c.toNat == 0x205F || c.toNat == 0x3000

/-- Decimal digits of a character. -/
def decDigitVal (c : Char) : Option Nat :=
  if c.isDigit then some (c.toNat - '0'.toNat) else none

/-- Hexadecimal digits of a character: the decimal digits, and the
letters a-f in either case valued 10-15. -/
def hexDigitVal (c : Char) : Option Nat :=
  match decDigitVal c with
  | some d => some d
  | none =>
    let lo := c.toLower
    if 'a' ≤ lo && lo ≤ 'f' then some (10 + (lo.toNat - 'a'.toNat)) else none

/-- Value of a run of digits under a digit valuation and radix. -/
def digitsVal (dv : Char → Option Nat) (radix : Nat) : List Char → Nat → Nat
  | [], acc => acc
  | c :: rest, acc =>
    match dv c with
    | some d => digitsVal dv radix rest (acc * radix + d)
    | none => acc

/-- Whether the character list starts with at least one digit of the
given valuation. -/
def hasLeadingDigit (dv : Char → Option Nat) : List Char → Bool
  | [] => false
  | c :: _ => (dv c).isSome

/-- The leading digit run, for termination-free prefix parsing. -/
def takeDigits (dv : Char → Option Nat) : List Char → List Char
  | [] => []
  | c :: rest => if (dv c).isSome then c :: takeDigits dv rest else []

/-- JS `parseInt(s)` with no radix argument: skip leading JS
whitespace, an optional sign, then — if the remainder starts with `0x`
or `0X` — strip that prefix and parse the longest run of hexadecimal
digits, otherwise parse the longest run of decimal digits; `NaN` (here
`none`) when no digit follows. -/
def jsParseInt (s : String) : Option Int :=
  let chars := s.toList.dropWhile jsWhitespaceChar
  let signed : Bool × List Char :=
    match chars with
    | '-' :: rest => (true, rest)
    | '+' :: rest => (false, rest)
    | rest => (false, rest)
  let radixed : Nat × (Char → Option Nat) × List Char :=
    match signed.2 with
    | '0' :: 'x' :: rest => (16, hexDigitVal, rest)
    | '0' :: 'X' :: rest => (16, hexDigitVal, rest)
    | rest => (10, decDigitVal, rest)
  if hasLeadingDigit radixed.2.1 radixed.2.2 then
    let v : Int := Int.ofNat
      (digitsVal radixed.2.1 radixed.1 (takeDigits radixed.2.1 radixed.2.2) 0)
    some (if signed.1 then -v else v)
  else
    none

/-- `Map.get` with a possibly-`NaN` key: under SameValueZero a `NaN` key
would only match a `NaN` entry, and every stored key is the numeric
value the counter assigned, so a `NaN` lookup finds nothing. -/
def getProjectByNum (s : MemStorage) (id : Option Int) : Option VideoProject :=
  s.projects.find? (fun p =>
    match id with
    | some n => (p.id : Int) == n
    | none => false)

/-- Outcome of the `GET /api/projects/:id` handler. -/
inductive HandlerResult where
  | okJson (p : VideoProject)
  | notFound (msg : String)
  | serverError (msg : String)
deriving Repr, DecidableEq

/-- The `GET /api/projects/:id` handler: `parseInt` the path segment,
look the project up, 404 with "Project not found" when absent. -/
def getProjectHandler (s : MemStorage) (idParam : String) : HandlerResult :=
  match getProjectByNum s (jsParseInt idParam) with
  | none => .notFound "Project not found"
  | some p => .okJson p

/-! ## Media generation proxy (`api/higgs-client.ts` and
`server/replit_integrations/higgs/client.ts`)

The status endpoint's JSON responses are modelled by `StatusData`
(fields the two clients read; `none` = absent).  An element of an
`images` array is either a JSON string or an object with optional
`url` / `image_url` fields (`JVal`).  Each iteration of a polling loop
performs one status fetch, abstracted by an oracle
`polls : Nat → PollFetch` giving the outcome of the fetch at each
attempt index.  Waits (`setTimeout`) are recorded in milliseconds. -/

/-- A JSON value in an `images` array: a string, or an object with
optional `url` / `image_url` string fields. -/
inductive JVal where
  | s (x : String)
  | o (url : Option String) (image_url : Option String)
deriving Repr, DecidableEq

/-- A status-endpoint JSON body, restricted to the fields the clients
read. -/
structure StatusData where
  status : String
  images : Option (List JVal) := none
  image_url : Option String := none
  url : Option String := none
  message : Option String := none
  error : Option String := none
deriving Repr, DecidableEq

/-- `typeof images[0] === 'string' ? images[0] : images[0].url ||
images[0].image_url` (api-client variant, both in the poll loop and in
Format 1 of the submission normalization). -/
def imgUrlOf : JVal → Option String
  | .s x => some x
  | .o u iu => jsOrS u iu

/-- Outcome of one status fetch: a parsed JSON body, or a thrown error
(a rejected `fetch`, or the `!response.ok` throw with its message). -/
inductive PollFetch where
  | ok (d : StatusData)
  | fetchErr (msg : String)
deriving Repr

/-- What one iteration of a poll loop's `try` body does with a parsed
status body. -/
inductive TryStep where
  | ret (url : String)
  | thrw (msg : String)
  | wait
deriving Repr, DecidableEq

/-- Fallback of the api-client completed branch: the
`statusData.image_url || statusData.url` probe, then the
"Completed but no image URL found in response" throw. -/
def apiCompletedFallback (d : StatusData) : TryStep :=
  match jsOrS d.image_url d.url with
  | some u => if u ≠ "" then .ret u else .thrw "Completed but no image URL found in response"
  | none => .thrw "Completed but no image URL found in response"

/-- The api-client poll loop's `try` body (`api/higgs-client.ts`,
`pollForImageStatus`): terminal returns and throws, or fall through to
the wait.  `failed` and `nsfw` both throw
`Generation <status>: <message || 'Unknown error'>`; `queued`,
`in_progress` and any unknown status wait. -/
def apiPollBody (d : StatusData) : TryStep :=
  if d.status == "completed" then
    match (match d.images with
           | some (a :: _) => imgUrlOf a
           | _ => none) with
    | some u => if u ≠ "" then .ret u else apiCompletedFallback d
    | none => apiCompletedFallback d
  else if d.status == "failed" || d.status == "nsfw" then
    .thrw ("Generation " ++ d.status ++ ": " ++ jsOrDflt d.message "Unknown error")
  else
    .wait

/-- Result of a poll loop: the resolved image URL, or the thrown
error's message. -/
inductive PollResult where
  | ok (url : String)
  | err (msg : String)
deriving Repr, DecidableEq

/-- A poll loop run: its result, the sequence of waits (ms) it slept,
and the number of status fetches it made. -/
structure PollOut where
  result : PollResult
  waits : List Nat
  fetches : Nat
deriving Repr, DecidableEq

/-- The api-client `pollForImageStatus` loop
(`for (let attempt = 0; attempt < maxAttempts; attempt++)`), with the
`catch` that swallows every thrown error — including the terminal
`failed` / `nsfw` / malformed-completed throws — and retries after a
wait unless the error occurred on the final attempt, in which case it
is rethrown wrapped as
`Failed to get image status after <maxAttempts> attempts: <msg>`.
`fuel` is the number of loop iterations left (`maxAttempts - attempt`);
exhaustion is the `Image generation timed out` throw after the loop. -/
def apiPollAux (polls : Nat → PollFetch) (maxAttempts interval : Nat) :
    Nat → Nat → PollOut
  | _, 0 =>
    ⟨.err ("Image generation timed out after " ++ toString maxAttempts ++ " attempts"), [], 0⟩
  | attempt, fuel + 1 =>
    let caught : String → PollOut := fun m =>
      if attempt == maxAttempts - 1 then
        ⟨.err ("Failed to get image status after " ++ toString maxAttempts ++
               " attempts: " ++ m), [], 1⟩
      else
        let r := apiPollAux polls maxAttempts interval (attempt + 1) fuel
        ⟨r.result, interval :: r.waits, r.fetches + 1⟩
    match polls attempt with
    | .fetchErr m => caught m
    | .ok d =>
      match apiPollBody d with
      | .ret u => ⟨.ok u, [], 1⟩
      | .thrw m => caught m
      | .wait =>
        let r := apiPollAux polls maxAttempts interval (attempt + 1) fuel
        ⟨r.result, interval :: r.waits, r.fetches + 1⟩

/-- `pollForImageStatus` of `api/higgs-client.ts` at its default
parameters (`maxAttempts = 30`, `pollInterval = 2000`), as invoked by
`generateImage`. -/
def pollForImageStatusApi (polls : Nat → PollFetch) : PollOut :=
  apiPollAux polls 30 2000 0 30

/-- `status.images[0].url || status.images[0]` (server-client completed
branch): a string element has no `url` property, so the element itself
is returned; an object element yields its `url` when truthy, otherwise
the object itself. -/
def serverUrlOf : JVal → JVal
  | .s x => .s x
  | .o u iu => match u with
    | some v => if v ≠ "" then .s v else .o u iu
    | none => .o u iu

/-- Result of the server-client poll loop: the resolved value of the
`url` field (which can be a whole `images[0]` object), or a thrown
error's message. -/
inductive ServerPollResult where
  | ok (url : JVal)
  | err (msg : String)
deriving Repr, DecidableEq

/-- A server-client poll loop run. -/
structure ServerPollOut where
  result : ServerPollResult
  waits : List Nat
  fetches : Nat
deriving Repr, DecidableEq

/-- What one iteration of the server-client poll loop's `try` body does
with a parsed status body. -/
inductive ServerTryStep where
  | ret (url : JVal)
  | thrw (msg : String)
  | wait
deriving Repr, DecidableEq

/-- The server-client poll loop's `try` body
(`server/replit_integrations/higgs/client.ts`, `pollForImageStatus`):
`completed` with a non-empty `images` array returns; `completed`
without one falls through to the wait (no throw); `failed` throws
`error || message || 'Image generation failed'`; `nsfw` throws
`Content was flagged as NSFW`; anything else waits. -/
def serverPollBody (d : StatusData) : ServerTryStep :=
  if d.status == "completed" then
    match d.images with
    | some (a :: _) => .ret (serverUrlOf a)
    | _ => .wait
  else if d.status == "failed" then
    .thrw (jsOrDflt (jsOrS d.error d.message) "Image generation failed")
  else if d.status == "nsfw" then
    .thrw "Content was flagged as NSFW"
  else
    .wait

/-- The server-client `pollForImageStatus` loop: same catch-and-retry
shape as the api variant, but the error rethrown on the final attempt
is the raw error (not wrapped). -/
def serverPollAux (polls : Nat → PollFetch) (maxAttempts interval : Nat) :
    Nat → Nat → ServerPollOut
  | _, 0 => ⟨.err "Image generation timed out", [], 0⟩
  | attempt, fuel + 1 =>
    let caught : String → ServerPollOut := fun m =>
      if attempt == maxAttempts - 1 then
        ⟨.err m, [], 1⟩
      else
        let r := serverPollAux polls maxAttempts interval (attempt + 1) fuel
        ⟨r.result, interval :: r.waits, r.fetches + 1⟩
    match polls attempt with
    | .fetchErr m => caught m
    | .ok d =>
      match serverPollBody d with
      | .ret u => ⟨.ok u, [], 1⟩
      | .thrw m => caught m
      | .wait =>
        let r := serverPollAux polls maxAttempts interval (attempt + 1) fuel
        ⟨r.result, interval :: r.waits, r.fetches + 1⟩

/-- `pollForImageStatus` of the server client at its default parameters
(`maxAttempts = 60`, `intervalMs = 2000`). -/
def pollForImageStatusServer (polls : Nat → PollFetch) : ServerPollOut :=
  serverPollAux polls 60 2000 0 60

/-! ### `generateImage` submission loop (`api/higgs-client.ts`) -/

/-- A JSON primitive as it can appear in `request_id` / `id`. -/
inductive JPrim where
  | pstr (s : String)
  | pnum (n : Int)
deriving Repr, DecidableEq

/-- JS truthiness of an optional `request_id` / `id` value. -/
def primTruthy : Option JPrim → Bool
  | some (.pstr s) => s ≠ ""
  | some (.pnum n) => n ≠ 0
  | none => false

/-- JS `a || b` on optional primitives (`result.request_id || result.id`). -/
def jsOrP (a b : Option JPrim) : Option JPrim :=
  if primTruthy a then a else b

/-- A parsed submission response: an object with the fields the
normalization probes, or a bare JSON array (Format 4). -/
inductive SubResp where
  | obj (images : Option (List JVal)) (url image_url : Option String)
        (request_id idField : Option JPrim)
  | arr (elems : List JVal)
deriving Repr, DecidableEq

/-- A parsed non-ok HTTP error body (`JSON.parse(errorText)` succeeded). -/
structure ErrBody where
  error : Option String := none
  message : Option String := none
deriving Repr, DecidableEq

/-- The error message the client builds for a non-ok submission
response: `errorJson.error || errorJson.message || default` when the
body parses as JSON, else `errorText || default`. -/
def httpErrMessage (status : Nat) (body : Option ErrBody) (bodyText : String) : String :=
  let dflt := "API request failed with status " ++ toString status
  match body with
  | some j => jsOrDflt (jsOrS j.error j.message) dflt
  | none => if bodyText ≠ "" then bodyText else dflt

/-- Outcome of one submission fetch: a parsed response, a non-ok HTTP
response (status, parsed body if any, raw body text), or a rejected
fetch (error name and message, e.g. `AbortError` on timeout). -/
inductive SubFetch where
  | ok (r : SubResp)
  | httpErr (status : Nat) (body : Option ErrBody) (bodyText : String)
  | netThrow (name msg : String)
deriving Repr

/-- A thrown JS error, by `name` and `message`. -/
structure JsError where
  name : String
  msg : String
deriving Repr, DecidableEq

/-- `error.name === 'AbortError' || error.message?.includes('timeout')`. -/
def isTimeoutErr (e : JsError) : Bool :=
  e.name == "AbortError" || strIncludes e.msg "timeout"

/-- `error.message?.includes('fetch failed') || ...('ECONNREFUSED') ||
...('ETIMEDOUT')`. -/
def isNetworkErr (e : JsError) : Bool :=
  strIncludes e.msg "fetch failed" || strIncludes e.msg "ECONNREFUSED" ||
    strIncludes e.msg "ETIMEDOUT"

/-- What the response-shape normalization does with a parsed
submission response. -/
inductive NormStep where
  | done (url : Option String)
  | doPoll (requestId : String)
  | thrw (e : JsError)
deriving Repr, DecidableEq

/-- Format 1: non-empty `images` array whose first element yields a
truthy URL. -/
def fmt1 (images : Option (List JVal)) : Option String :=
  match images with
  | some (a :: _) =>
    let iu := imgUrlOf a
    if strTruthy iu then iu else none
  | _ => none

/-- Format 2: `result.url || result.image_url`, truthy. -/
def fmt2 (url image_url : Option String) : Option String :=
  let v := jsOrS url image_url
  if strTruthy v then v else none

/-- The response-shape normalization of `generateImage`
(`api/higgs-client.ts`, Formats 1–4 and the final
`Unrecognized response format from API` throw).  On an object, a truthy
`request_id || id` that is not a string falls through Format 3, and —
the object not being an array — Format 4, to the throw. -/
def normalizeSubResp : SubResp → NormStep
  | .obj images url image_url request_id idField =>
    match fmt1 images with
    | some u => .done (some u)
    | none =>
      match fmt2 url image_url with
      | some u => .done (some u)
      | none =>
        if primTruthy (jsOrP request_id idField) then
          match jsOrP request_id idField with
          | some (.pstr rid) => .doPoll rid
          | _ => .thrw ⟨"Error", "Unrecognized response format from API"⟩
        else
          .thrw ⟨"Error", "Unrecognized response format from API"⟩
  | .arr elems =>
    match elems with
    | a :: _ =>
      .done (match a with
             | .s x => some x
             | .o u _ => u)
    | [] => .thrw ⟨"Error", "Unrecognized response format from API"⟩

/-- Result of `generateImage`: the resolved `{url}` (whose `url` field
Format 4 can leave undefined), or the thrown error. -/
inductive GenResult where
  | ok (url : Option String)
  | err (e : JsError)
deriving Repr, DecidableEq

/-- A `generateImage` run: its result, every wait it slept (submission
backoffs and polling waits, in ms, in order), the number of submission
fetches and the number of status fetches. -/
structure GenOut where
  result : GenResult
  waits : List Nat
  subAttempts : Nat
  pollFetches : Nat
deriving Repr, DecidableEq

/-- The `generateImage` retry loop (`api/higgs-client.ts`,
`maxRetries = 3`): each iteration makes one submission fetch
(`subs attempt`), normalizes the response, and on Format 3 runs the
poll loop (whose status fetches for the submission of attempt `i` are
`polls i`); every error thrown inside the `try` — including a poll-loop
error — is caught and, when classified as a timeout or network error
and not on the last attempt, retried after a `(attempt + 1) * 2000` ms
backoff; otherwise it propagates.  The fuel-exhaustion branch models
the unreachable `throw lastError || Error(...)` after the loop. -/
def genAux (subs : Nat → SubFetch) (polls : Nat → Nat → PollFetch) :
    Nat → Nat → GenOut
  | _, 0 => ⟨.err ⟨"Error", "Failed to generate image after retries"⟩, [], 0, 0⟩
  | attempt, fuel + 1 =>
    let caught : JsError → GenOut := fun e =>
      if (isTimeoutErr e || isNetworkErr e) && attempt < 2 then
        let r := genAux subs polls (attempt + 1) fuel
        ⟨r.result, (attempt + 1) * 2000 :: r.waits, r.subAttempts + 1, r.pollFetches⟩
      else
        ⟨.err e, [], 1, 0⟩
    match subs attempt with
    | .netThrow n m => caught ⟨n, m⟩
    | .httpErr st b t => caught ⟨"Error", httpErrMessage st b t⟩
    | .ok r =>
      match normalizeSubResp r with
      | .done u => ⟨.ok u, [], 1, 0⟩
      | .thrw e => caught e
      | .doPoll _ =>
        let p := pollForImageStatusApi (polls attempt)
        match p.result with
        | .ok u => ⟨.ok (some u), p.waits, 1, p.fetches⟩
        | .err m =>
          let c := caught ⟨"Error", m⟩
          ⟨c.result, p.waits ++ c.waits, c.subAttempts, p.fetches + c.pollFetches⟩

/-- `generateImage` of `api/higgs-client.ts`: the credentials gate,
then the retry loop (3 attempts from attempt 0). -/
def generateImageApi (apiKey apiSecret : Option String)
    (subs : Nat → SubFetch) (polls : Nat → Nat → PollFetch) : GenOut :=
  if !strTruthy apiKey || !strTruthy apiSecret then
    ⟨.err ⟨"Error", "Higgsfield credentials not configured. Set HF_API_KEY and HF_API_SECRET environment variables."⟩,
     [], 0, 0⟩
  else
    genAux subs polls 0 3

/-! ## `POST /api/generate-script` instruction template
(`server/routes.ts`)

The system prompt interpolates
`Be ${videoLength || 15}-${(videoLength || 15) + 5} seconds ...
(roughly ${Math.round((videoLength || 15) * 2.5)} words)`.
`videoLength` comes from the request body (`none` = absent); JS `||`
replaces a falsy value — absent or `0` — by the default 15. -/

/-- `videoLength || 15`. -/
def effVideoLength : Option ℚ → ℚ
  | some v => if v = 0 then 15 else v
  | none => 15

/-- JS `Math.round`: round half toward positive infinity,
`⌊x + 1/2⌋`. -/
def jsRound (q : ℚ) : ℤ := ⌊q + 1 / 2⌋

/-- The template's target word count:
`Math.round((videoLength || 15) * 2.5)`. -/
def scriptTargetWords (videoLength : Option ℚ) : ℤ :=
  jsRound (effVideoLength videoLength * 2.5)

/-- The template's speaking-duration window
`${videoLength || 15}-${(videoLength || 15) + 5} seconds`. -/
def scriptWindow (videoLength : Option ℚ) : ℚ × ℚ :=
  (effVideoLength videoLength, effVideoLength videoLength + 5)

/-! ## Shared concrete fixtures and shape helpers for the theorems -/

/-- A patch containing only `script: x` (`update(id, {script: "x"})`). -/
def scriptPatch (x : String) : ProjectPatch := { script := some (some x) }

/-- Three consecutive `createProject` calls on a fresh store, with
creation times `t1`, `t2`, `t3`. -/
def createThree (i1 i2 i3 : InsertVideoProject) (t1 t2 t3 : Nat) : MemStorage :=
  (((MemStorage.empty.createProject i1 t1).2.createProject i2 t2).2.createProject i3 t3).2

/-- The record the k-th of the three creates returns (k = 1, 2, 3). -/
def createThirdRec (i1 i2 i3 : InsertVideoProject) (t1 t2 t3 : Nat) : VideoProject :=
  (((MemStorage.empty.createProject i1 t1).2.createProject i2 t2).2.createProject i3 t3).1

/-- The record the second of the three creates returns. -/
def createSecondRec (i1 i2 : InsertVideoProject) (t1 t2 : Nat) : VideoProject :=
  ((MemStorage.empty.createProject i1 t1).2.createProject i2 t2).1

/-- The record the first create returns. -/
def createFirstRec (i1 : InsertVideoProject) (t1 : Nat) : VideoProject :=
  (MemStorage.empty.createProject i1 t1).1

/-- An insert with every optional field omitted. -/
def minimalInsert (title platform purpose tone : String) : InsertVideoProject :=
  { title := title, platform := platform, purpose := purpose, tone := tone }

/-! ## Helper lemmas about the store model -/

lemma find?_replace_of_any (l : List VideoProject) (v : VideoProject)
    (h : l.any (fun p => p.id == v.id) = true) :
    (l.map (fun p => if p.id == v.id then v else p)).find?
      (fun p => p.id == v.id) = some v := by
  induction l with
  | nil => simp at h
  | cons a l ih =>
    cases ha : (a.id == v.id) with
    | true =>
      have h1 : (if a.id == v.id then v else a) = v := by simp [ha]
      rw [List.map_cons, h1, List.find?_cons_of_pos _ (by simp)]
    | false =>
      simp only [List.any_cons, ha, Bool.false_or] at h
      have h2 : (if a.id == v.id then v else a) = a := by simp [ha]
      rw [List.map_cons, h2, List.find?_cons_of_neg _ (by simp [ha])]
      exact ih h

lemma find?_append_of_not_any (l : List VideoProject) (v : VideoProject)
    (h : l.any (fun p => p.id == v.id) = false) :
    (l ++ [v]).find? (fun p => p.id == v.id) = some v := by
  induction l with
  | nil => simp [List.find?]
  | cons a l ih =>
    simp only [List.any_cons, Bool.or_eq_false_iff] at h
    rw [List.cons_append, List.find?_cons_of_neg _ (by simp [h.1])]
    exact ih h.2

lemma mapSet_find?_self (l : List VideoProject) (v : VideoProject) :
    (mapSet l v).find? (fun p => p.id == v.id) = some v := by
  rw [mapSet]
  cases hany : l.any (fun p => p.id == v.id) with
  | true => simp only [hany, if_true]; exact find?_replace_of_any l v hany
  | false => simp only [hany, Bool.false_eq_true, if_false]
             exact find?_append_of_not_any l v hany

lemma find?_replace_ne (l : List VideoProject) (v : VideoProject) (j : Nat)
    (h : v.id ≠ j) :
    (l.map (fun p => if p.id == v.id then v else p)).find? (fun p => p.id == j)
      = l.find? (fun p => p.id == j) := by
  induction l with
  | nil => rfl
  | cons a l ih =>
    by_cases ha : a.id = v.id
    · have h1 : (if a.id == v.id then v else a) = v := by simp [ha]
      rw [List.map_cons, h1, List.find?_cons_of_neg _ (by simpa using h),
          List.find?_cons_of_neg _ (by simp [ha]; simpa using h)]
      exact ih
    · have h2 : (if a.id == v.id then v else a) = a := by simp [ha]
      rw [List.map_cons, h2, List.find?_cons, List.find?_cons, ih]

lemma mapSet_find?_ne (l : List VideoProject) (v : VideoProject) (j : Nat)
    (h : v.id ≠ j) :
    (mapSet l v).find? (fun p => p.id == j) = l.find? (fun p => p.id == j) := by
  rw [mapSet]
  cases hany : l.any (fun p => p.id == v.id) with
  | true =>
    simp only [hany, if_true]
    exact find?_replace_ne l v j h
  | false =>
    simp only [hany, Bool.false_eq_true, if_false, List.find?_append]
    have hv : (v.id == j) = false := by simpa using h
    cases hf : l.find? (fun p => p.id == j) with
    | some p => simp [hf]
    | none => simp [hf, List.find?, hv]

/-! ## Claim theorems -/

/-- C4, counterexample to the claim as stated: with every optional field
omitted, the created record's `keyPhrase` is `null` (`none`), not the
empty string the claim's "defaulted to empty" would require. -/
theorem createProject_defaults_counterexample :
    (MemStorage.empty.createProject
        (minimalInsert "t" "reels" "educational" "professional") 0).1.keyPhrase
      ≠ some "" := by
  decide

/-- C4 (amended): a `create` with all optional fields omitted yields a
record with all five milestone flags false, `videoLength = 15`,
`createdAt` stamped with the creation time, and every omitted nullable
string field defaulted to `null` (absent), not the empty string; the
full record is returned and persisted. -/
theorem createProject_defaults (title platform purpose tone : String)
    (s : MemStorage) (now : Nat) :
    ((s.createProject (minimalInsert title platform purpose tone) now).1.hookGenerated = false) ∧
    ((s.createProject (minimalInsert title platform purpose tone) now).1.imageGenerated = false) ∧
    ((s.createProject (minimalInsert title platform purpose tone) now).1.videoGenerated = false) ∧
    ((s.createProject (minimalInsert title platform purpose tone) now).1.audioGenerated = false) ∧
    ((s.createProject (minimalInsert title platform purpose tone) now).1.editingComplete = false) ∧
    ((s.createProject (minimalInsert title platform purpose tone) now).1.videoLength = 15) ∧
    ((s.createProject (minimalInsert title platform purpose tone) now).1.createdAt = now) ∧
    ((s.createProject (minimalInsert title platform purpose tone) now).1.keyPhrase = none) ∧
    ((s.createProject (minimalInsert title platform purpose tone) now).1.keyword = none) ∧
    ((s.createProject (minimalInsert title platform purpose tone) now).1.script = none) ∧
    ((s.createProject (minimalInsert title platform purpose tone) now).1.imagePrompt = none) ∧
    ((s.createProject (minimalInsert title platform purpose tone) now).1.videoPrompt = none) ∧
    ((s.createProject (minimalInsert title platform purpose tone) now).2.getProject
        (s.createProject (minimalInsert title platform purpose tone) now).1.id
      = some (s.createProject (minimalInsert title platform purpose tone) now).1) := by
  refine ⟨rfl, rfl, rfl, rfl, rfl, rfl, rfl, rfl, rfl, rfl, rfl, rfl, ?_⟩
  exact mapSet_find?_self s.projects _

/-- C7: `delete(id)` reports whether a record existed; after it,
`get(id)` is not-found and a second `delete(id)` returns false (no
throw: the operation is total). -/
theorem deleteProject_semantics (s : MemStorage) (id : Nat) :
    ((s.deleteProject id).1 = (s.getProject id).isSome) ∧
    ((s.deleteProject id).2.getProject id = none) ∧
    (((s.deleteProject id).2.deleteProject id).1 = false) := by
  refine ⟨?_, ?_, ?_⟩
  · simp only [MemStorage.deleteProject, MemStorage.getProject]
    rw [Bool.eq_iff_iff, List.any_eq_true]
    simp [List.find?_isSome]
  · simp only [MemStorage.deleteProject, MemStorage.getProject]
    rw [List.find?_eq_none]
    intro x hx
    simp only [List.mem_filter] at hx
    simpa using hx.2
  · simp only [MemStorage.deleteProject]
    rw [List.any_eq_false]
    intro x hx
    simp only [List.mem_filter] at hx
    simpa using hx.2

/-- C10: any `GET /api/projects/:id` request whose `:id` segment does
not parse to the numeric id of a stored project — including non-numeric
strings, for which `parseInt` yields `NaN` — gets a 404
"Project not found" response, never a validation error or a crash. -/
theorem getProjectHandler_notFound (s : MemStorage) (idParam : String)
    (h : ∀ p ∈ s.projects, jsParseInt idParam ≠ some (p.id : Int)) :
    getProjectHandler s idParam = .notFound "Project not found" := by
  rw [getProjectHandler]
  have hnone : getProjectByNum s (jsParseInt idParam) = none := by
    rw [getProjectByNum, List.find?_eq_none]
    intro x hx
    cases hp : jsParseInt idParam with
    | none => simp
    | some n =>
      have hne := h x hx
      rw [hp] at hne
      simp only [Bool.not_eq_true, beq_eq_false_iff_ne, ne_eq]
      intro he
      exact hne (by rw [he])
  rw [hnone]

/-- C10 witness: a one-project store and the non-numeric id "abc". -/
theorem getProjectHandler_notFound_witness :
    getProjectHandler
      ⟨[⟨1, "t", "reels", 15, "educational", "professional", none, none, none,
          false, false, false, false, false, none, none, 0⟩], 2⟩ "abc"
      = .notFound "Project not found" :=
  getProjectHandler_notFound _ "abc" (by decide)

/-- C5: `updateProject` is a merge with a frame condition: on a stored
id it returns and persists exactly the patched record (patched fields
take the patch's values, omitted fields — `id` and `createdAt`
included — are preserved), other ids are untouched; in particular a
`{script: x}` patch changes only `script`.  On an absent id it returns
not-found and leaves the store unchanged. -/
theorem updateProject_merge (s : MemStorage) (id : Nat) (u : ProjectPatch) :
    (∀ p, s.getProject id = some p →
       (s.updateProject id u).1 = some (mergeProject p u) ∧
       (s.updateProject id u).2.getProject id = some (mergeProject p u) ∧
       (∀ j, j ≠ id → (s.updateProject id u).2.getProject j = s.getProject j)) ∧
    (s.getProject id = none → s.updateProject id u = (none, s)) ∧
    (∀ p x, s.getProject id = some p →
       (s.updateProject id (scriptPatch x)).2.getProject id
         = some { p with script := some x }) := by
  have key : ∀ (u' : ProjectPatch) p, s.getProject id = some p →
      (s.updateProject id u').1 = some (mergeProject p u') ∧
      (s.updateProject id u').2.getProject id = some (mergeProject p u') ∧
      (∀ j, j ≠ id → (s.updateProject id u').2.getProject j = s.getProject j) := by
    intro u' p hp
    have hid : p.id = id := by simpa using List.find?_some hp
    have hmid : (mergeProject p u').id = id := by rw [← hid]; rfl
    refine ⟨?_, ?_, ?_⟩
    · simp [MemStorage.updateProject, hp]
    · simp only [MemStorage.updateProject, hp]
      show (mapSet s.projects (mergeProject p u')).find? (fun q => q.id == id) = _
      rw [← hmid]
      exact mapSet_find?_self _ _
    · intro j hj
      simp only [MemStorage.updateProject, hp]
      show (mapSet s.projects (mergeProject p u')).find? (fun q => q.id == j)
        = s.projects.find? (fun q => q.id == j)
      exact mapSet_find?_ne _ _ _ (by rw [hmid]; exact fun he => hj he.symm)
  refine ⟨key u, ?_, ?_⟩
  · intro h
    simp [MemStorage.updateProject, h]
  · intro p x hp
    have : mergeProject p (scriptPatch x) = { p with script := some x } := rfl
    exact this ▸ (key (scriptPatch x) p hp).2.1

/-- C5 witness: create one project, patch its script, read it back. -/
theorem updateProject_merge_witness :
    (((MemStorage.empty.createProject
          (minimalInsert "t" "reels" "educational" "professional") 5).2.updateProject
        1 (scriptPatch "x")).2.getProject 1)
      = some ⟨1, "t", "reels", 15, "educational", "professional", none, none,
              some "x", false, false, false, false, false, none, none, 5⟩ :=
  (updateProject_merge
      (MemStorage.empty.createProject
        (minimalInsert "t" "reels" "educational" "professional") 5).2 1
      (scriptPatch "x")).2.2
    ⟨1, "t", "reels", 15, "educational", "professional", none, none, none,
      false, false, false, false, false, none, none, 5⟩ "x" (by decide)

lemma three_desc (a b c : VideoProject) (l : List VideoProject)
    (hperm : l.Perm [a, b, c])
    (hsort : l.Pairwise (fun x y => y.createdAt ≤ x.createdAt))
    (hab : a.createdAt < b.createdAt) (hbc : b.createdAt < c.createdAt) :
    l = [c, b, a] := by
  have hlen : l.length = 3 := by simpa using hperm.length_eq
  rcases l with _ | ⟨x, _ | ⟨y, _ | ⟨z, _ | ⟨w, l⟩⟩⟩⟩ <;> simp at hlen
  have hndabc : ([a, b, c] : List VideoProject).Nodup := by
    have h1 : a ≠ b := fun h => (Nat.ne_of_lt hab) (congrArg VideoProject.createdAt h)
    have h2 : a ≠ c := fun h =>
      (Nat.ne_of_lt (hab.trans hbc)) (congrArg VideoProject.createdAt h)
    have h3 : b ≠ c := fun h => (Nat.ne_of_lt hbc) (congrArg VideoProject.createdAt h)
    simp [h1, h2, h3]
  have hnd : ([x, y, z] : List VideoProject).Nodup := hperm.nodup_iff.mpr hndabc
  have hxy : x ≠ y := by simp at hnd; tauto
  have hxz : x ≠ z := by simp at hnd; tauto
  have hyz : y ≠ z := by simp at hnd; tauto
  have hx : x = a ∨ x = b ∨ x = c := by
    have : x ∈ ([a, b, c] : List VideoProject) := hperm.mem_iff.mp (by simp)
    simpa using this
  have hy : y = a ∨ y = b ∨ y = c := by
    have : y ∈ ([a, b, c] : List VideoProject) := hperm.mem_iff.mp (by simp)
    simpa using this
  have hz : z = a ∨ z = b ∨ z = c := by
    have : z ∈ ([a, b, c] : List VideoProject) := hperm.mem_iff.mp (by simp)
    simpa using this
  have hs1 : y.createdAt ≤ x.createdAt := by
    simp [List.pairwise_cons] at hsort; tauto
  have hs2 : z.createdAt ≤ x.createdAt := by
    simp [List.pairwise_cons] at hsort; tauto
  have hs3 : z.createdAt ≤ y.createdAt := by
    simp [List.pairwise_cons] at hsort; tauto
  rcases hx with rfl | rfl | rfl <;> rcases hy with rfl | rfl | rfl <;>
    rcases hz with rfl | rfl | rfl <;>
    first
      | rfl
      | (exfalso; omega)
      | simp_all

/-- C6: `getProjects` returns exactly the stored records (a
permutation of the store's contents) ordered by `createdAt` descending;
in particular three creates at times `t1 < t2 < t3` list back as the
third, second, first records. -/
theorem getProjects_sorted :
    (∀ s : MemStorage,
       s.getProjects.Perm s.projects ∧
       s.getProjects.Pairwise (fun a b => b.createdAt ≤ a.createdAt)) ∧
    (∀ (i1 i2 i3 : InsertVideoProject) (t1 t2 t3 : Nat), t1 < t2 → t2 < t3 →
       (createThree i1 i2 i3 t1 t2 t3).getProjects =
         [createThirdRec i1 i2 i3 t1 t2 t3, createSecondRec i1 i2 t1 t2,
          createFirstRec i1 t1]) := by
  have hgen : ∀ s : MemStorage,
      s.getProjects.Perm s.projects ∧
      s.getProjects.Pairwise (fun a b => b.createdAt ≤ a.createdAt) := by
    intro s
    refine ⟨List.mergeSort_perm _ _, ?_⟩
    have hp := @List.sorted_mergeSort VideoProject
      (fun a b : VideoProject => decide (b.createdAt ≤ a.createdAt))
      (fun a b c h1 h2 => by
        simp only [decide_eq_true_eq] at h1 h2 ⊢; omega)
      (fun a b => by
        simp only [Bool.or_eq_true, decide_eq_true_eq]; omega)
      s.projects
    exact hp.imp (fun h => by simpa using h)
  refine ⟨hgen, ?_⟩
  intro i1 i2 i3 t1 t2 t3 h12 h23
  have hproj : (createThree i1 i2 i3 t1 t2 t3).projects =
      [createFirstRec i1 t1, createSecondRec i1 i2 t1 t2,
       createThirdRec i1 i2 i3 t1 t2 t3] := rfl
  refine three_desc _ _ _ _ ?_ ((hgen _).2) h12 h23
  rw [← hproj]
  exact (hgen _).1

/-- C6 witness: three concrete creates at times 0 < 1 < 2. -/
theorem getProjects_sorted_witness :
    (createThree (minimalInsert "a" "reels" "educational" "professional")
        (minimalInsert "b" "tiktok" "explainer" "casual")
        (minimalInsert "c" "shorts" "promotional" "energetic") 0 1 2).getProjects =
      [createThirdRec (minimalInsert "a" "reels" "educational" "professional")
          (minimalInsert "b" "tiktok" "explainer" "casual")
          (minimalInsert "c" "shorts" "promotional" "energetic") 0 1 2,
       createSecondRec (minimalInsert "a" "reels" "educational" "professional")
          (minimalInsert "b" "tiktok" "explainer" "casual") 0 1,
       createFirstRec (minimalInsert "a" "reels" "educational" "professional") 0] :=
  getProjects_sorted.2 _ _ _ 0 1 2 (by decide) (by decide)

lemma updateProject_counter (s : MemStorage) (id : Nat) (u : ProjectPatch) :
    (s.updateProject id u).2.projectIdCounter = s.projectIdCounter := by
  rcases h : s.getProject id with _ | p <;> simp [MemStorage.updateProject, h]

lemma runOpsAux_ids (ops : List StoreOp) : ∀ s : MemStorage,
    (runOpsAux s ops).2 = List.range' s.projectIdCounter (countCreates ops) := by
  induction ops with
  | nil => intro s; rfl
  | cons op rest ih =>
    intro s
    cases op with
    | create ins now =>
      simp only [runOpsAux, applyOp, countCreates]
      rw [ih, List.range'_succ]
      rfl
    | update id u =>
      simp only [runOpsAux, applyOp, countCreates]
      rw [ih, updateProject_counter]
    | del id =>
      simp only [runOpsAux, applyOp, countCreates]
      rw [ih]
      rfl

lemma pairwise_lt_range1 (n : Nat) : ∀ s, (List.range' s n).Pairwise (· < ·) := by
  induction n with
  | zero => intro s; simp
  | succ n ih =>
    intro s
    rw [List.range'_succ]
    refine List.Pairwise.cons ?_ (ih (s + 1))
    intro m hm
    rw [List.mem_range'] at hm
    obtain ⟨i, hi, rfl⟩ := hm
    omega

/-- C8: over every sequence of store operations starting from a fresh
store, the ids the creates assign are strictly increasing in order of
assignment (so each id is assigned exactly once and is never reused,
deletions notwithstanding). -/
theorem create_ids_fresh (ops : List StoreOp) :
    (runOps ops).2.Pairwise (· < ·) ∧ (runOps ops).2.Nodup := by
  have h : (runOps ops).2 = List.range' 1 (countCreates ops) :=
    runOpsAux_ids ops MemStorage.empty
  rw [h]
  exact ⟨pairwise_lt_range1 _ _,
         (pairwise_lt_range1 _ _).imp Nat.ne_of_lt⟩

/-- C9, counterexample to the claim as stated: at `videoLength = 0` the
template does not compute `round(0 * 2.5)` words or the window
`[0, 5]` — the falsy-default `|| 15` replaces 0 by 15, giving 38 words
and the window `[15, 20]`. -/
theorem scriptTemplate_counterexample :
    scriptTargetWords (some 0) ≠ jsRound ((0 : ℚ) * 2.5) ∧
    scriptWindow (some 0) ≠ ((0 : ℚ), (0 : ℚ) + 5) := by
  constructor
  · norm_num [scriptTargetWords, effVideoLength, jsRound]
  · norm_num [scriptWindow, effVideoLength]

/-- C9 (amended): for every `videoLength` that is provided and nonzero,
the instruction template computes `round(videoLength * 2.5)` target
words and the speaking-duration window
`[videoLength, videoLength + 5]` seconds (an omitted or zero
`videoLength` is replaced by the default 15); in particular
`videoLength = 20` gives 50 words and the window "20-25 seconds". -/
theorem scriptTemplate_arith :
    (∀ q : ℚ, q ≠ 0 →
       scriptTargetWords (some q) = jsRound (q * 2.5) ∧
       scriptWindow (some q) = (q, q + 5)) ∧
    scriptTargetWords (some 20) = 50 ∧
    scriptWindow (some 20) = (20, 25) := by
  refine ⟨fun q hq => ⟨?_, ?_⟩, ?_, ?_⟩
  · simp [scriptTargetWords, effVideoLength, hq]
  · simp [scriptWindow, effVideoLength, hq]
  · norm_num [scriptTargetWords, effVideoLength, jsRound]
  · norm_num [scriptWindow, effVideoLength]

/-- C9 witness: the amended general statement applied at
`videoLength = 20`. -/
theorem scriptTemplate_arith_witness :
    scriptTargetWords (some 20) = jsRound ((20 : ℚ) * 2.5) ∧
    scriptWindow (some 20) = (20, 20 + 5) :=
  scriptTemplate_arith.1 20 (by norm_num)

/-- C1, evaluation of the code at the failing input (every status poll
returns `{status: "nsfw"}`): neither client variant terminates at the
first `nsfw` observation.  The `nsfw` throw is caught by the poll
loop's own retry `catch`, which waits and polls again; the server
client makes all 60 status fetches (59 waits) before the NSFW message
escapes on the final attempt, and the api client makes all 30 fetches
(29 waits) and ends with the retries-exhausted wrapper around the nsfw
text rather than an immediate distinct rejection. -/
theorem nsfw_not_terminal :
    pollForImageStatusServer (fun _ => .ok { status := "nsfw" }) =
      { result := .err "Content was flagged as NSFW",
        waits := List.replicate 59 2000, fetches := 60 } ∧
    pollForImageStatusApi (fun _ => .ok { status := "nsfw" }) =
      { result := .err
          "Failed to get image status after 30 attempts: Generation nsfw: Unknown error",
        waits := List.replicate 29 2000, fetches := 30 } :=
  ⟨rfl, rfl⟩

/-- C2: a submission response carrying only `{request_id: "abc"}`
followed by three "in_progress" polls and a completed poll with
`images: ["u2"]` resolves `generateImage` to `{url: "u2"}` after
exactly three 2-second waits (one after each "in_progress" poll, none
after the completed poll), with one submission fetch and four status
fetches. -/
theorem generateImage_async_happy_path
    (subs : Nat → SubFetch) (polls : Nat → Nat → PollFetch)
    (hs : subs 0 = .ok (.obj none none none (some (.pstr "abc")) none))
    (h0 : polls 0 0 = .ok { status := "in_progress" })
    (h1 : polls 0 1 = .ok { status := "in_progress" })
    (h2 : polls 0 2 = .ok { status := "in_progress" })
    (h3 : polls 0 3 = .ok { status := "completed", images := some [.s "u2"] }) :
    generateImageApi (some "key") (some "secret") subs polls =
      { result := .ok (some "u2"), waits := [2000, 2000, 2000],
        subAttempts := 1, pollFetches := 4 } := by
  have hpoll : pollForImageStatusApi (polls 0) =
      { result := .ok "u2", waits := [2000, 2000, 2000], fetches := 4 } := by
    rw [pollForImageStatusApi]
    rw [show (30 : Nat) = 29 + 1 from rfl, apiPollAux, h0]
    rw [show (29 : Nat) = 28 + 1 from rfl, apiPollAux, h1]
    rw [show (28 : Nat) = 27 + 1 from rfl, apiPollAux, h2]
    rw [show (27 : Nat) = 26 + 1 from rfl, apiPollAux, h3]
    rfl
  rw [generateImageApi]
  rw [show (3 : Nat) = 2 + 1 from rfl, genAux, hs]
  simp only [normalizeSubResp]
  rw [hpoll]
  rfl

/-- C2 witness: concrete oracles realizing the scenario. -/
theorem generateImage_async_happy_path_witness :
    generateImageApi (some "key") (some "secret")
      (fun _ => .ok (.obj none none none (some (.pstr "abc")) none))
      (fun _ k => if k < 3 then .ok { status := "in_progress" }
                  else .ok { status := "completed", images := some [.s "u2"] }) =
      { result := .ok (some "u2"), waits := [2000, 2000, 2000],
        subAttempts := 1, pollFetches := 4 } :=
  generateImage_async_happy_path _ _ rfl rfl rfl rfl rfl

lemma genAux_netThrow (subs : Nat → SubFetch) (polls : Nat → Nat → PollFetch)
    (attempt fuel : Nat) (n m : String)
    (hs : subs attempt = .netThrow n m) :
    genAux subs polls attempt (fuel + 1) =
      if ((isTimeoutErr ⟨n, m⟩ || isNetworkErr ⟨n, m⟩) && decide (attempt < 2)) = true then
        ⟨(genAux subs polls (attempt + 1) fuel).result,
         (attempt + 1) * 2000 :: (genAux subs polls (attempt + 1) fuel).waits,
         (genAux subs polls (attempt + 1) fuel).subAttempts + 1,
         (genAux subs polls (attempt + 1) fuel).pollFetches⟩
      else ⟨.err ⟨n, m⟩, [], 1, 0⟩ := by
  rw [genAux, hs]

lemma genAux_httpErr (subs : Nat → SubFetch) (polls : Nat → Nat → PollFetch)
    (attempt fuel : Nat) (st : Nat) (body : Option ErrBody) (txt : String)
    (hs : subs attempt = .httpErr st body txt) :
    genAux subs polls attempt (fuel + 1) =
      if ((isTimeoutErr ⟨"Error", httpErrMessage st body txt⟩ ||
            isNetworkErr ⟨"Error", httpErrMessage st body txt⟩) &&
          decide (attempt < 2)) = true then
        ⟨(genAux subs polls (attempt + 1) fuel).result,
         (attempt + 1) * 2000 :: (genAux subs polls (attempt + 1) fuel).waits,
         (genAux subs polls (attempt + 1) fuel).subAttempts + 1,
         (genAux subs polls (attempt + 1) fuel).pollFetches⟩
      else ⟨.err ⟨"Error", httpErrMessage st body txt⟩, [], 1, 0⟩ := by
  rw [genAux, hs]

/-- C3: when every submission attempt throws a
transiently-classified error (abort/timeout or network failure),
`generateImage` makes exactly 3 submission attempts with backoff waits
of 2s then 4s (none after the final attempt) and fails with the last
error; a non-transient failure — e.g. the error built from a non-ok
HTTP response body — is never retried and propagates immediately from
whichever attempt it occurs on (shown for attempts 1, 2 and 3, with
only the already-spent backoffs in the trace). -/
theorem generateImage_submission_retry :
    (∀ (subs : Nat → SubFetch) (polls : Nat → Nat → PollFetch)
       (n0 m0 n1 m1 n2 m2 : String),
       subs 0 = .netThrow n0 m0 → subs 1 = .netThrow n1 m1 →
       subs 2 = .netThrow n2 m2 →
       (isTimeoutErr ⟨n0, m0⟩ || isNetworkErr ⟨n0, m0⟩) = true →
       (isTimeoutErr ⟨n1, m1⟩ || isNetworkErr ⟨n1, m1⟩) = true →
       (isTimeoutErr ⟨n2, m2⟩ || isNetworkErr ⟨n2, m2⟩) = true →
       generateImageApi (some "key") (some "secret") subs polls =
         { result := .err ⟨n2, m2⟩, waits := [2000, 4000],
           subAttempts := 3, pollFetches := 0 }) ∧
    (∀ (subs : Nat → SubFetch) (polls : Nat → Nat → PollFetch)
       (st : Nat) (body : Option ErrBody) (txt : String),
       (isTimeoutErr ⟨"Error", httpErrMessage st body txt⟩ ||
         isNetworkErr ⟨"Error", httpErrMessage st body txt⟩) = false →
       (subs 0 = .httpErr st body txt →
          generateImageApi (some "key") (some "secret") subs polls =
            { result := .err ⟨"Error", httpErrMessage st body txt⟩, waits := [],
              subAttempts := 1, pollFetches := 0 }) ∧
       (∀ n0 m0, subs 0 = .netThrow n0 m0 →
          (isTimeoutErr ⟨n0, m0⟩ || isNetworkErr ⟨n0, m0⟩) = true →
          subs 1 = .httpErr st body txt →
          generateImageApi (some "key") (some "secret") subs polls =
            { result := .err ⟨"Error", httpErrMessage st body txt⟩, waits := [2000],
              subAttempts := 2, pollFetches := 0 }) ∧
       (∀ n0 m0 n1 m1, subs 0 = .netThrow n0 m0 →
          (isTimeoutErr ⟨n0, m0⟩ || isNetworkErr ⟨n0, m0⟩) = true →
          subs 1 = .netThrow n1 m1 →
          (isTimeoutErr ⟨n1, m1⟩ || isNetworkErr ⟨n1, m1⟩) = true →
          subs 2 = .httpErr st body txt →
          generateImageApi (some "key") (some "secret") subs polls =
            { result := .err ⟨"Error", httpErrMessage st body txt⟩,
              waits := [2000, 4000], subAttempts := 3, pollFetches := 0 })) := by
  constructor
  · intro subs polls n0 m0 n1 m1 n2 m2 hs0 hs1 hs2 ht0 ht1 ht2
    rw [generateImageApi]
    have e0 := genAux_netThrow subs polls 0 2 n0 m0 hs0
    simp only [Nat.reduceAdd, Nat.reduceMul] at e0
    have e1 := genAux_netThrow subs polls 1 1 n1 m1 hs1
    simp only [Nat.reduceAdd, Nat.reduceMul] at e1
    have e2 := genAux_netThrow subs polls 2 0 n2 m2 hs2
    simp only [Nat.reduceAdd, Nat.reduceMul] at e2
    rw [e0, ht0, e1, ht1, e2, ht2]
    rfl
  · intro subs polls st body txt hnt
    refine ⟨?_, ?_, ?_⟩
    · intro hs0
      rw [generateImageApi]
      have e0 := genAux_httpErr subs polls 0 2 st body txt hs0
      simp only [Nat.reduceAdd, Nat.reduceMul] at e0
      rw [e0, hnt]
      rfl
    · intro n0 m0 hs0 ht0 hs1
      rw [generateImageApi]
      have e0 := genAux_netThrow subs polls 0 2 n0 m0 hs0
      simp only [Nat.reduceAdd, Nat.reduceMul] at e0
      have e1 := genAux_httpErr subs polls 1 1 st body txt hs1
      simp only [Nat.reduceAdd, Nat.reduceMul] at e1
      rw [e0, ht0, e1, hnt]
      rfl
    · intro n0 m0 n1 m1 hs0 ht0 hs1 ht1 hs2
      rw [generateImageApi]
      have e0 := genAux_netThrow subs polls 0 2 n0 m0 hs0
      simp only [Nat.reduceAdd, Nat.reduceMul] at e0
      have e1 := genAux_netThrow subs polls 1 1 n1 m1 hs1
      simp only [Nat.reduceAdd, Nat.reduceMul] at e1
      have e2 := genAux_httpErr subs polls 2 0 st body txt hs2
      simp only [Nat.reduceAdd, Nat.reduceMul] at e2
      rw [e0, ht0, e1, ht1, e2, hnt]
      rfl

/-- C3 witness: every attempt aborts with a timeout. -/
theorem generateImage_submission_retry_witness :
    generateImageApi (some "key") (some "secret")
      (fun _ => .netThrow "AbortError" "This operation was aborted")
      (fun _ _ => .fetchErr "unused") =
      { result := .err ⟨"AbortError", "This operation was aborted"⟩,
        waits := [2000, 4000], subAttempts := 3, pollFetches := 0 } :=
  generateImage_submission_retry.1 _ _ _ _ _ _ _ _ rfl rfl rfl rfl rfl rfl
